import Mathlib

/-
Shallow embedding of the asynchronous task-orchestration core of the
Travel-Agent repository:

  * src/task_repository.py — `TaskRecord` (dataclass) and `TaskRepository`
    (SQLite-backed store with operations `create_task`, `update_status`,
    `update_result`, `update_error`, `get`).
  * src/webapp.py — `TaskManager.submit` and its inner worker `_runner`.

Modelling conventions:

  * JSON-serialisable Python values are modelled by the inductive `Json`.
    The SQLite TEXT cells that the Python code fills with `json.dumps(x)`
    and reads back with `json.loads(...)` are modelled as holding the
    `Json` value itself: for JSON-serialisable mappings `json.loads` is
    the exact inverse of `json.dumps`, so the dump/load round-trip at the
    store boundary is value-preserving.  `json.dumps` never returns the
    empty string, so Python's falsy-string check `if row["result"]`
    (resp. `if row["metadata"]`) is modelled as the `Option` being `some`
    (resp. as always taking the loads branch for the NOT NULL metadata
    column).
  * `datetime` values are modelled by `PyDatetime`; `isoformat` is
    implemented concretely below and `datetime.fromisoformat` is its
    exact inverse, so the `created_at` TEXT cell is modelled as holding
    the `PyDatetime` value itself.
  * Exceptions are modelled explicitly: a job function either returns a
    result value or raises with a message (`JobOutcome`); a completion
    callback returns `none` (normal return) or `some msg` (it raised an
    exception whose `str` is `msg`); `sqlite3.IntegrityError` on a
    duplicate primary key becomes `Except.error RepoError.duplicateID`.
  * The thread pool is modelled by making the deferred `_runner` an
    explicit function on the store, run after `submit` has returned; the
    per-task execution sequence inside `_runner` is translated
    statement by statement, recording the list of records passed to the
    completion callback and the exception (if any) escaping `_runner`.
-/

/-- JSON values, modelling Python objects accepted by `json.dumps`
    (dict / list / str / int / bool / None). -/
inductive Json where
  | null : Json
  | bool (b : Bool) : Json
  | num (n : Int) : Json
  | str (s : String) : Json
  | arr (items : List Json) : Json
  | obj (entries : List (String × Json)) : Json
deriving Repr

/-- Python truthiness of a JSON value (`None`, `False`, `0`, `""`, `[]`,
    `{}` are falsy). -/
def Json.pyTruthy : Json → Bool
  | .null => false
  | .bool b => b
  | .num n => n != 0
  | .str s => !s.isEmpty
  | .arr items => !items.isEmpty
  | .obj entries => !entries.isEmpty

/-- Python `m or {}` on an optional mapping, as used for the `metadata`
    arguments in `TaskRepository.create_task` and `TaskManager.submit`. -/
def pyOrEmptyObj : Option Json → Json
  | none => .obj []
  | some j => if j.pyTruthy then j else .obj []

/-- A `datetime.datetime` value (naive, as produced by
    `datetime.utcnow()`). -/
structure PyDatetime where
  year : Nat
  month : Nat
  day : Nat
  hour : Nat
  minute : Nat
  second : Nat
  microsecond : Nat
deriving DecidableEq, Repr

/-- Decimal rendering of `n` left-padded with zeros to `width` digits,
    as Python's format specifier `{:0Nd}` does for the fields below. -/
def padNum (width : Nat) (n : Nat) : String :=
  let s := toString n
  String.mk (List.replicate (width - s.length) '0') ++ s

/-- Python `datetime.isoformat()`: `YYYY-MM-DDTHH:MM:SS` with a
    `.ffffff` microsecond suffix exactly when `microsecond` is nonzero. -/
def PyDatetime.isoformat (t : PyDatetime) : String :=
  padNum 4 t.year ++ "-" ++ padNum 2 t.month ++ "-" ++ padNum 2 t.day ++ "T" ++
    padNum 2 t.hour ++ ":" ++ padNum 2 t.minute ++ ":" ++ padNum 2 t.second ++
    (if t.microsecond = 0 then "" else "." ++ padNum 6 t.microsecond)

/-- The `TaskRecord` dataclass of src/task_repository.py. -/
structure TaskRecord where
  id : String
  status : String
  created_at : PyDatetime
  config_payload : Json
  result : Option Json := none
  error : Option String := none
  metadata : Json := .obj []
deriving Repr

/-- `TaskRecord.to_dict`: the JSON-ready wire mapping, with the exact
    keys and order of the Python dict literal. -/
def TaskRecord.to_dict (r : TaskRecord) : List (String × Json) :=
  [ ("id", .str r.id),
    ("status", .str r.status),
    ("created_at", .str r.created_at.isoformat),
    ("config", r.config_payload),
    ("error", match r.error with | some e => .str e | none => .null),
    ("metadata", r.metadata),
    ("result", match r.result with | some j => j | none => .null) ]

/-- One row of the SQLite `tasks` table.  `result` and `error` are the
    nullable columns; the serialised TEXT cells hold the deserialised
    values per the modelling conventions above. -/
structure TaskRow where
  id : String
  status : String
  created_at : PyDatetime
  config : Json
  result : Option Json
  error : Option String
  metadata : Json
deriving Repr

/-- Serialisation performed by `TaskRepository.create_task` when building
    the INSERT payload: `metadata` goes through `record.metadata or {}`. -/
def TaskRecord.toRow (r : TaskRecord) : TaskRow :=
  { id := r.id,
    status := r.status,
    created_at := r.created_at,
    config := r.config_payload,
    result := r.result,
    error := r.error,
    metadata := pyOrEmptyObj (some r.metadata) }

/-- Errors raised by the store: `sqlite3.IntegrityError` on inserting a
    duplicate primary key. -/
inductive RepoError where
  | duplicateID : RepoError
deriving DecidableEq, Repr

/-- The `tasks` table, in insertion order; `id` is the primary key, kept
    unique by `create_task`. -/
abbrev Store := List TaskRow

namespace TaskRepository

/-- `TaskRepository.create_task`: INSERT of the serialised record; the
    PRIMARY KEY constraint raises (and the transaction rolls back,
    leaving the table unchanged) when the id already exists. -/
def create_task (db : Store) (record : TaskRecord) : Except RepoError Store :=
  if db.any (fun r => r.id == record.id) then .error .duplicateID
  else .ok (db ++ [record.toRow])

/-- Effect of `UPDATE tasks SET status = ? WHERE id = ?` on one row. -/
def rowUpdateStatus (r : TaskRow) (status : String) : TaskRow :=
  { r with status := status }

/-- Effect of `UPDATE tasks SET status = "finished", result = ?,
    error = NULL WHERE id = ?` on one row. -/
def rowUpdateResult (r : TaskRow) (result : Json) : TaskRow :=
  { r with status := "finished", result := some result, error := none }

/-- Effect of `UPDATE tasks SET status = "failed", error = ?,
    result = NULL WHERE id = ?` on one row. -/
def rowUpdateError (r : TaskRow) (message : String) : TaskRow :=
  { r with status := "failed", error := some message, result := none }

/-- `TaskRepository.update_status`: overwrites status of the matching
    row; an UPDATE matching no row succeeds and changes nothing. -/
def update_status (db : Store) (task_id : String) (status : String) : Store :=
  db.map (fun r => if r.id == task_id then rowUpdateStatus r status else r)

/-- `TaskRepository.update_result`: sets status=finished, result, and
    clears error on the matching row in one UPDATE. -/
def update_result (db : Store) (task_id : String) (result : Json) : Store :=
  db.map (fun r => if r.id == task_id then rowUpdateResult r result else r)

/-- `TaskRepository.update_error`: sets status=failed, error, and clears
    result on the matching row in one UPDATE. -/
def update_error (db : Store) (task_id : String) (message : String) : Store :=
  db.map (fun r => if r.id == task_id then rowUpdateError r message else r)

/-- Reconstruction of a `TaskRecord` from a fetched row, as in
    `TaskRepository.get`: `result` is loaded when the cell is non-NULL
    (a `json.dumps` string is never empty), `metadata` is NOT NULL and
    always loaded. -/
def rowToRecord (row : TaskRow) : TaskRecord :=
  { id := row.id,
    status := row.status,
    created_at := row.created_at,
    config_payload := row.config,
    result := row.result,
    error := row.error,
    metadata := row.metadata }

/-- `TaskRepository.get`: SELECT by primary key, `None` when missing. -/
def get (db : Store) (task_id : String) : Option TaskRecord :=
  (db.find? (fun r => r.id == task_id)).map rowToRecord

end TaskRepository

/-- Outcome of calling the job function `run_fn()`: a normal return
    carrying `AgentResult.to_dict()` (`ok`), or a raised exception whose
    `str` is `message` (`fault`). -/
inductive JobOutcome where
  | ok (result : Json) : JobOutcome
  | fault (message : String) : JobOutcome

/-- A completion callback: `none` means it returned normally, `some msg`
    means it raised an exception whose `str` is `msg`. -/
abbrev Callback := TaskRecord → Option String

/-- Everything observable about one execution of `_runner`: the store it
    leaves behind, the records passed to the completion callback in
    order, and the exception escaping `_runner` to the executor, if any. -/
structure RunnerOutcome where
  db : Store
  invocations : List TaskRecord
  escaped : Option String
deriving Repr

/-- The record built at the top of `TaskManager.submit`:
    `TaskRecord(id=task_id, status="queued", created_at=datetime.utcnow(),
    config_payload=config_data, metadata=metadata or {})`. -/
def queuedRecord (task_id : String) (now : PyDatetime) (config_data : Json)
    (metadata : Option Json) : TaskRecord :=
  { id := task_id,
    status := "queued",
    created_at := now,
    config_payload := config_data,
    metadata := pyOrEmptyObj metadata }

namespace TaskManager

/-- `TaskManager.submit`: builds the queued record, synchronously
    persists it via `create_task`, hands `_runner` to the executor and
    returns the record.  The fresh `uuid4().hex` id and
    `datetime.utcnow()` are inputs of the model; the deferred `_runner`
    is the separate function `runner` below, applied to the store after
    `submit` has returned. -/
def submit (db : Store) (task_id : String) (now : PyDatetime)
    (config_data : Json) (metadata : Option Json) :
    Except RepoError (Store × TaskRecord) :=
  match TaskRepository.create_task db (queuedRecord task_id now config_data metadata) with
  | .error e => .error e
  | .ok db2 => .ok (db2, queuedRecord task_id now config_data metadata)

/-- The inner `_runner` of `TaskManager.submit`, translated statement by
    statement.  `update_status` runs outside the try block; the try
    block covers `run_fn()`, `update_result` and the success-path
    callback invocation; the except handler logs, runs `update_error`
    with the caught exception's message and invokes the callback again;
    an exception raised inside the except handler escapes `_runner`. -/
def runner (db : Store) (task_id : String) (job : JobOutcome)
    (completion : Option Callback) : RunnerOutcome :=
  let db1 := TaskRepository.update_status db task_id "running"
  match job with
  | .ok result =>
    let db2 := TaskRepository.update_result db1 task_id result
    match completion with
    | none => ⟨db2, [], none⟩
    | some cb =>
      match TaskRepository.get db2 task_id with
      | none => ⟨db2, [], none⟩
      | some current =>
        match cb current with
        | none => ⟨db2, [current], none⟩
        | some exc =>
          let db3 := TaskRepository.update_error db2 task_id exc
          match TaskRepository.get db3 task_id with
          | none => ⟨db3, [current], none⟩
          | some cur2 =>
            match cb cur2 with
            | none => ⟨db3, [current, cur2], none⟩
            | some exc2 => ⟨db3, [current, cur2], some exc2⟩
  | .fault m =>
    let db2 := TaskRepository.update_error db1 task_id m
    match completion with
    | none => ⟨db2, [], none⟩
    | some cb =>
      match TaskRepository.get db2 task_id with
      | none => ⟨db2, [], none⟩
      | some current =>
        match cb current with
        | none => ⟨db2, [current], none⟩
        | some exc => ⟨db2, [current], some exc⟩

end TaskManager

/-
Concrete fixtures used by counterexamples and witnesses.
-/

/-- A sample creation timestamp. -/
def sampleTime : PyDatetime := ⟨2024, 1, 2, 3, 4, 5, 0⟩

/-- A sample caller-supplied input mapping. -/
def sampleConfig : Json := .obj [("foo", .str "bar")]

/-- A sample successful job result, `AgentResult.to_dict()`-shaped. -/
def sampleResult : Json := .obj [("score", .num 42)]

/-- A completion callback that raises exactly when handed a record in
    the `finished` state (for instance because serialising the result
    for delivery blows up), and returns normally otherwise. -/
def raisingCallback : Callback :=
  fun r => if r.status == "finished" then some "notify blew up" else none

/-- A completion callback that always returns normally. -/
def quietCallback : Callback := fun _ => none

/-- The store right after `submit` on an empty store returned: it holds
    exactly the queued record for task id `t1`. -/
def dbQ : Store :=
  match TaskManager.submit [] "t1" sampleTime sampleConfig none with
  | .ok (db, _) => db
  | .error _ => []

/-- A sample fully-populated record. -/
def sampleRecord : TaskRecord :=
  { id := "t1",
    status := "queued",
    created_at := sampleTime,
    config_payload := sampleConfig,
    metadata := .obj [("source", .str "telegram")] }

/-
Store lemmas shared by the claim theorems.
-/

/-- Mapping an id-preserving row transformation commutes with the
    primary-key lookup. -/
theorem find?_map_id_pres (db : Store) (task_id : String) (f : TaskRow → TaskRow)
    (hf : ∀ r, (f r).id = r.id) :
    (db.map f).find? (fun r => r.id == task_id) =
      ((db.find? (fun r => r.id == task_id)).map f) := by
  induction db with
  | nil => rfl
  | cons a tl ih =>
    by_cases h : a.id = task_id
    · have hb : (a.id == task_id) = true := by simpa using h
      simp [List.find?, hf, hb]
    · have hb : (a.id == task_id) = false := by simpa using h
      simp [List.find?, hf, hb, ih]

/-- Effect of the three UPDATE helpers on a subsequent lookup of the
    same id. -/
theorem get_update_status (db : Store) (task_id status : String) :
    TaskRepository.get (TaskRepository.update_status db task_id status) task_id =
      (TaskRepository.get db task_id).map (fun r => { r with status := status }) := by
  unfold TaskRepository.get TaskRepository.update_status
  rw [find?_map_id_pres]
  · cases h : db.find? (fun r => r.id == task_id) with
    | none => rfl
    | some r =>
      have : r.id = task_id := by
        have := List.find?_some h
        simpa using this
      simp [this, TaskRepository.rowUpdateStatus, TaskRepository.rowToRecord]
  · intro r
    unfold TaskRepository.rowUpdateStatus
    split <;> rfl

/-- Effect of `update_result` on a subsequent lookup of the same id. -/
theorem get_update_result (db : Store) (task_id : String) (result : Json) :
    TaskRepository.get (TaskRepository.update_result db task_id result) task_id =
      (TaskRepository.get db task_id).map
        (fun r => { r with status := "finished", result := some result, error := none }) := by
  unfold TaskRepository.get TaskRepository.update_result
  rw [find?_map_id_pres]
  · cases h : db.find? (fun r => r.id == task_id) with
    | none => rfl
    | some r =>
      have : r.id = task_id := by
        have := List.find?_some h
        simpa using this
      simp [this, TaskRepository.rowUpdateResult, TaskRepository.rowToRecord]
  · intro r
    unfold TaskRepository.rowUpdateResult
    split <;> rfl

/-- Effect of `update_error` on a subsequent lookup of the same id. -/
theorem get_update_error (db : Store) (task_id message : String) :
    TaskRepository.get (TaskRepository.update_error db task_id message) task_id =
      (TaskRepository.get db task_id).map
        (fun r => { r with status := "failed", error := some message, result := none }) := by
  unfold TaskRepository.get TaskRepository.update_error
  rw [find?_map_id_pres]
  · cases h : db.find? (fun r => r.id == task_id) with
    | none => rfl
    | some r =>
      have : r.id = task_id := by
        have := List.find?_some h
        simpa using this
      simp [this, TaskRepository.rowUpdateError, TaskRepository.rowToRecord]
  · intro r
    unfold TaskRepository.rowUpdateError
    split <;> rfl

/-- On a store containing no row with the given id, `create_task`
    succeeds by appending the serialised record. -/
theorem create_task_fresh (db : Store) (record : TaskRecord)
    (h : ∀ r ∈ db, r.id ≠ record.id) :
    TaskRepository.create_task db record = .ok (db ++ [record.toRow]) := by
  unfold TaskRepository.create_task
  have : db.any (fun r => r.id == record.id) = false := by
    simp only [List.any_eq_false]
    intro r hr
    simpa using h r hr
  simp [this]

/-- Primary-key lookup of a freshly appended row when no earlier row
    has its id. -/
theorem find?_append_fresh (db : Store) (row : TaskRow) :
    (∀ r ∈ db, r.id ≠ row.id) →
      (db ++ [row]).find? (fun r => r.id == row.id) = some row := by
  induction db with
  | nil =>
    intro _
    simp [List.find?]
  | cons a tl ih =>
    intro h
    have ha : (a.id == row.id) = false := by simpa using h a (by simp)
    have htl := ih (fun r hr => h r (by simp [hr]))
    simpa [List.find?, ha] using htl

/-- Looking up a freshly appended row finds it when no earlier row has
    its id. -/
theorem get_append_fresh (db : Store) (row : TaskRow)
    (h : ∀ r ∈ db, r.id ≠ row.id) :
    TaskRepository.get (db ++ [row]) row.id = some (TaskRepository.rowToRecord row) := by
  unfold TaskRepository.get
  simp [find?_append_fresh db row h]

/-
Reachability of per-task row states through the orchestrator.
-/

/-- Row states one task's row passes through under the orchestrator's
    operations, at the call sites actually present in the code: `submit`
    creates the queued row; `_runner` marks it running first (the record
    is still queued then), finishes via `update_result` only after the
    running write, and fails via `update_error` from the except handler,
    which runs either while the row is `running` (the job raised) or
    after the finishing success write (the callback raised). -/
inductive OrchReachable : TaskRow → Prop where
  | created (task_id : String) (now : PyDatetime) (config : Json)
      (metadata : Option Json) :
      OrchReachable (TaskRecord.toRow
        { id := task_id, status := "queued", created_at := now,
          config_payload := config, metadata := pyOrEmptyObj metadata })
  | mark_running (r : TaskRow) :
      OrchReachable r → r.status = "queued" →
      OrchReachable (TaskRepository.rowUpdateStatus r "running")
  | finish (r : TaskRow) (result : Json) :
      OrchReachable r → r.status = "running" →
      OrchReachable (TaskRepository.rowUpdateResult r result)
  | fail (r : TaskRow) (message : String) :
      OrchReachable r → (r.status = "running" ∨ r.status = "finished") →
      OrchReachable (TaskRepository.rowUpdateError r message)

/-- C5: in every record reachable through the orchestrator's operations
    (create queued, mark running, finish with result, fail with error),
    `status == finished` holds iff the result is non-null and the error
    is null, and `status == failed` holds iff the error is non-null and
    the result is null. -/
theorem C5_terminal_field_invariant (r : TaskRow) (h : OrchReachable r) :
    (r.status = "finished" ↔ r.result ≠ none ∧ r.error = none) ∧
    (r.status = "failed" ↔ r.error ≠ none ∧ r.result = none) := by
  induction h with
  | created task_id now config metadata =>
    simp [TaskRecord.toRow]
  | mark_running r hr hq ih =>
    have h1 : ¬(r.result ≠ none ∧ r.error = none) := by
      intro hc
      have hfin := ih.1.mpr hc
      rw [hq] at hfin
      exact absurd hfin (by decide)
    have h2 : ¬(r.error ≠ none ∧ r.result = none) := by
      intro hc
      have hfail := ih.2.mpr hc
      rw [hq] at hfail
      exact absurd hfail (by decide)
    simp only [TaskRepository.rowUpdateStatus]
    constructor
    · exact ⟨fun hf => absurd hf (by decide), fun hc => absurd hc h1⟩
    · exact ⟨fun hf => absurd hf (by decide), fun hc => absurd hc h2⟩
  | finish r result hr hrun ih =>
    simp [TaskRepository.rowUpdateResult]
  | fail r message hr hstat ih =>
    simp [TaskRepository.rowUpdateError]

/-- The row of task `t1` after queued → running → finished with
    `sampleResult`, used to instantiate the C5 invariant. -/
def finishedRow : TaskRow :=
  TaskRepository.rowUpdateResult
    (TaskRepository.rowUpdateStatus
      (TaskRecord.toRow
        { id := "t1", status := "queued", created_at := sampleTime,
          config_payload := sampleConfig, metadata := pyOrEmptyObj none })
      "running")
    sampleResult

/-- Witness: the C5 invariant evaluated on a concrete reachable row. -/
theorem C5_terminal_field_invariant_witness :
    (finishedRow.status = "finished" ↔ finishedRow.result ≠ none ∧ finishedRow.error = none) ∧
    (finishedRow.status = "failed" ↔ finishedRow.error ≠ none ∧ finishedRow.result = none) :=
  C5_terminal_field_invariant finishedRow
    (OrchReachable.finish _ sampleResult
      (OrchReachable.mark_running _
        (OrchReachable.created "t1" sampleTime sampleConfig none) rfl)
      rfl)

/-
Claim C3: update operations on a missing id.
-/

/-- Mapping a row transformation guarded by an id test over a store
    containing no row with that id changes nothing. -/
theorem map_update_fresh (db : Store) (task_id : String) (f : TaskRow → TaskRow) :
    (∀ r ∈ db, r.id ≠ task_id) →
      db.map (fun r => if r.id == task_id then f r else r) = db := by
  induction db with
  | nil =>
    intro _
    rfl
  | cons a tl ih =>
    intro h
    have ha : ¬(a.id == task_id) = true := by simpa using h a (by simp)
    have htl := ih (fun r hr => h r (by simp [hr]))
    rw [List.map_cons, if_neg ha, htl]

/-- C3 counterexample: on an id absent from the store, all three update
    operations return normally with the store unchanged — in this
    embedding their return type has no failure channel at all, because
    the SQL UPDATE statements they issue simply match zero rows; no
    `NotFound` failure is raised. -/
theorem C3_counterexample :
    TaskRepository.update_status [] "missing" "running" = [] ∧
    TaskRepository.update_result [] "missing" sampleResult = [] ∧
    TaskRepository.update_error [] "missing" "boom" = [] :=
  ⟨rfl, rfl, rfl⟩

/-- C3 amended: for every id not present in the store, `update_status`,
    `update_result` and `update_error` succeed silently, leaving the
    store unchanged, rather than failing with `NotFound`. -/
theorem C3_amended_updates_silent_on_missing (db : Store) (task_id status message : String)
    (result : Json) (h : ∀ r ∈ db, r.id ≠ task_id) :
    TaskRepository.update_status db task_id status = db ∧
    TaskRepository.update_result db task_id result = db ∧
    TaskRepository.update_error db task_id message = db :=
  ⟨map_update_fresh db task_id _ h,
   map_update_fresh db task_id _ h,
   map_update_fresh db task_id _ h⟩

/-- Witness: the amended C3 statement on a concrete singleton store and
    a concrete missing id. -/
theorem C3_amended_updates_silent_on_missing_witness :
    TaskRepository.update_status [sampleRecord.toRow] "other" "running" = [sampleRecord.toRow] ∧
    TaskRepository.update_result [sampleRecord.toRow] "other" sampleResult = [sampleRecord.toRow] ∧
    TaskRepository.update_error [sampleRecord.toRow] "other" "boom" = [sampleRecord.toRow] :=
  C3_amended_updates_silent_on_missing [sampleRecord.toRow] "other" "running" "boom"
    sampleResult (by decide)

/-
Claim C7: create on a duplicate id versus a fresh id.
-/

/-- C7: `create_task` on a record whose id is already present fails with
    the duplicate-primary-key error — the rolled-back transaction leaves
    the table untouched, which the embedding renders by the error branch
    carrying no store at all — and on a fresh id it persists exactly the
    serialised record, appended to the table. -/
theorem C7_create_duplicate_or_persist (db : Store) (record : TaskRecord) :
    ((∃ r ∈ db, r.id = record.id) →
      TaskRepository.create_task db record = .error .duplicateID) ∧
    ((∀ r ∈ db, r.id ≠ record.id) →
      TaskRepository.create_task db record = .ok (db ++ [record.toRow])) := by
  constructor
  · rintro ⟨r, hr, hid⟩
    unfold TaskRepository.create_task
    have hany : db.any (fun x => x.id == record.id) = true := by
      rw [List.any_eq_true]
      exact ⟨r, hr, by simpa using hid⟩
    simp [hany]
  · exact create_task_fresh db record

/-- Witness: C7 on a concrete duplicate store and on the empty store. -/
theorem C7_create_duplicate_or_persist_witness :
    TaskRepository.create_task [sampleRecord.toRow] sampleRecord = .error .duplicateID ∧
    TaskRepository.create_task [] sampleRecord = .ok ([] ++ [sampleRecord.toRow]) :=
  ⟨(C7_create_duplicate_or_persist [sampleRecord.toRow] sampleRecord).1
      ⟨sampleRecord.toRow, by simp, rfl⟩,
   (C7_create_duplicate_or_persist [] sampleRecord).2 (by simp)⟩

/-
Claim C4: submit persists the queued record before returning.
-/

/-- Applying `m or {}` twice is the same as applying it once. -/
theorem pyOrEmptyObj_idem (m : Option Json) :
    pyOrEmptyObj (some (pyOrEmptyObj m)) = pyOrEmptyObj m := by
  cases m with
  | none => rfl
  | some j =>
    show pyOrEmptyObj (some (if j.pyTruthy then j else Json.obj [])) =
      (if j.pyTruthy then j else Json.obj [])
    by_cases h : j.pyTruthy
    · rw [if_pos h]
      show (if j.pyTruthy then j else Json.obj []) = j
      rw [if_pos h]
    · rw [if_neg h]
      rfl

/-- Reading back the serialised queued record reproduces it exactly. -/
theorem rowToRecord_toRow_queued (task_id : String) (now : PyDatetime)
    (config_data : Json) (metadata : Option Json) :
    TaskRepository.rowToRecord (queuedRecord task_id now config_data metadata).toRow =
      queuedRecord task_id now config_data metadata := by
  unfold TaskRepository.rowToRecord TaskRecord.toRow queuedRecord
  simp [pyOrEmptyObj_idem]

/-- On a store containing no row with the task id, `submit` succeeds,
    appending the serialised queued record and returning the queued
    record itself. -/
theorem submit_fresh (db : Store) (task_id : String) (now : PyDatetime)
    (config_data : Json) (metadata : Option Json)
    (h : ∀ r ∈ db, r.id ≠ task_id) :
    TaskManager.submit db task_id now config_data metadata =
      .ok (db ++ [(queuedRecord task_id now config_data metadata).toRow],
        queuedRecord task_id now config_data metadata) := by
  unfold TaskManager.submit
  rw [create_task_fresh db (queuedRecord task_id now config_data metadata) h]

/-- The store `submit` leaves holds the queued record under the task id. -/
theorem get_after_submit (db : Store) (task_id : String) (now : PyDatetime)
    (config_data : Json) (metadata : Option Json)
    (h : ∀ r ∈ db, r.id ≠ task_id) :
    TaskRepository.get (db ++ [(queuedRecord task_id now config_data metadata).toRow])
        task_id =
      some (queuedRecord task_id now config_data metadata) := by
  have hg := get_append_fresh db (queuedRecord task_id now config_data metadata).toRow h
  rw [rowToRecord_toRow_queued] at hg
  exact hg

/-- C4: every call to `submit` persists the queued record synchronously
    before returning, so on the store `submit` returns (before the
    deferred worker has run anything) `get` on the returned id finds a
    record with status `queued`. -/
theorem C4_submit_persists_queued_before_return (db : Store) (task_id : String)
    (now : PyDatetime) (config_data : Json) (metadata : Option Json)
    (h : ∀ r ∈ db, r.id ≠ task_id) :
    TaskManager.submit db task_id now config_data metadata =
      .ok (db ++ [(queuedRecord task_id now config_data metadata).toRow],
        queuedRecord task_id now config_data metadata) ∧
    (TaskRepository.get (db ++ [(queuedRecord task_id now config_data metadata).toRow])
        task_id).map TaskRecord.status = some "queued" := by
  refine ⟨submit_fresh db task_id now config_data metadata h, ?_⟩
  rw [get_after_submit db task_id now config_data metadata h]
  rfl

/-- Witness: C4 on the empty store with concrete submit arguments. -/
theorem C4_submit_persists_queued_before_return_witness :
    TaskManager.submit [] "t1" sampleTime sampleConfig none =
      .ok ([] ++ [(queuedRecord "t1" sampleTime sampleConfig none).toRow],
        queuedRecord "t1" sampleTime sampleConfig none) ∧
    (TaskRepository.get ([] ++ [(queuedRecord "t1" sampleTime sampleConfig none).toRow])
        "t1").map TaskRecord.status = some "queued" :=
  C4_submit_persists_queued_before_return [] "t1" sampleTime sampleConfig none (by simp)

/-
Behaviour of `_runner`, split by job outcome.
-/

/-- The store immediately after the finishing write of the per-task
    execution sequence: `update_result` on a normal job return,
    `update_error` on a job fault. -/
def finishingDb (db : Store) (task_id : String) (job : JobOutcome) : Store :=
  match job with
  | .ok result =>
    TaskRepository.update_result
      (TaskRepository.update_status db task_id "running") task_id result
  | .fault m =>
    TaskRepository.update_error
      (TaskRepository.update_status db task_id "running") task_id m

/-- When the job faults, the store `_runner` leaves is exactly the one
    the finishing `update_error` produced: no later statement of the
    handler writes to the store, whatever the callback does. -/
theorem runner_fault_db (db : Store) (task_id M : String)
    (completion : Option Callback) :
    (TaskManager.runner db task_id (.fault M) completion).db =
      TaskRepository.update_error
        (TaskRepository.update_status db task_id "running") task_id M := by
  unfold TaskManager.runner
  cases completion with
  | none => rfl
  | some cb =>
    cases hg : TaskRepository.get
        (TaskRepository.update_error
          (TaskRepository.update_status db task_id "running") task_id M)
        task_id with
    | none => simp [hg]
    | some current =>
      cases hcb : cb current with
      | none => simp [hg, hcb]
      | some exc => simp [hg, hcb]

/-- Full behaviour of `_runner` on a normal job return when the task row
    is present and a callback was supplied: the finished record is
    re-fetched and passed to the callback; if the callback raises, the
    except handler overwrites the record to failed with the callback
    exception's message and passes the re-fetched failed record to the
    callback again; only an exception of that second call escapes. -/
theorem runner_ok_spec (db : Store) (task_id : String) (result : Json)
    (cb : Callback) (r0 : TaskRecord)
    (hget : TaskRepository.get db task_id = some r0) :
    TaskManager.runner db task_id (.ok result) (some cb) =
      match cb { r0 with status := "finished", result := some result, error := none } with
      | none =>
        ⟨TaskRepository.update_result
            (TaskRepository.update_status db task_id "running") task_id result,
          [{ r0 with status := "finished", result := some result, error := none }],
          none⟩
      | some exc =>
        ⟨TaskRepository.update_error
            (TaskRepository.update_result
              (TaskRepository.update_status db task_id "running") task_id result)
            task_id exc,
          [{ r0 with status := "finished", result := some result, error := none },
           { r0 with status := "failed", error := some exc, result := none }],
          cb { r0 with status := "failed", error := some exc, result := none }⟩ := by
  have h2 : TaskRepository.get
      (TaskRepository.update_result
        (TaskRepository.update_status db task_id "running") task_id result) task_id =
      some { r0 with status := "finished", result := some result, error := none } := by
    rw [get_update_result, get_update_status, hget]
    rfl
  unfold TaskManager.runner
  simp only [h2]
  cases hcb : cb { r0 with status := "finished", result := some result, error := none } with
  | none => simp [hcb]
  | some exc =>
    have h3 : TaskRepository.get
        (TaskRepository.update_error
          (TaskRepository.update_result
            (TaskRepository.update_status db task_id "running") task_id result)
          task_id exc) task_id =
        some { r0 with status := "failed", error := some exc, result := none } := by
      rw [get_update_error, h2]
      rfl
    simp only [h3]
    cases hcb2 : cb { r0 with status := "failed", error := some exc, result := none } with
    | none => simp [hcb, hcb2]
    | some exc2 => simp [hcb, hcb2]

/-- Full behaviour of `_runner` on a job fault when the task row is
    present and a callback was supplied: the failed record is re-fetched
    and passed to the callback once; an exception it raises escapes. -/
theorem runner_fault_spec (db : Store) (task_id M : String) (cb : Callback)
    (r0 : TaskRecord) (hget : TaskRepository.get db task_id = some r0) :
    TaskManager.runner db task_id (.fault M) (some cb) =
      ⟨TaskRepository.update_error
          (TaskRepository.update_status db task_id "running") task_id M,
        [{ r0 with status := "failed", error := some M, result := none }],
        cb { r0 with status := "failed", error := some M, result := none }⟩ := by
  have h2 : TaskRepository.get
      (TaskRepository.update_error
        (TaskRepository.update_status db task_id "running") task_id M) task_id =
      some { r0 with status := "failed", error := some M, result := none } := by
    rw [get_update_error, get_update_status, hget]
    rfl
  unfold TaskManager.runner
  simp only [h2]
  cases hcb : cb { r0 with status := "failed", error := some M, result := none } with
  | none => simp [hcb]
  | some exc => simp [hcb]

/-
Claim C1: stability of terminal status.
-/

/-- C1 counterexample: for task `t1` with a completion callback that
    raises on a finished record, the record reaches the terminal status
    `finished` at the finishing write (first conjunct), and the
    orchestrator's own per-task handling afterwards changes the
    already-terminal record again: the worker leaves it `failed`
    (second conjunct).  The raising callback therefore does revert the
    persisted terminal status, against the claim. -/
theorem C1_counterexample :
    (TaskRepository.get
        (TaskRepository.update_result
          (TaskRepository.update_status dbQ "t1" "running") "t1" sampleResult)
        "t1").map TaskRecord.status = some "finished" ∧
    (TaskRepository.get
        (TaskManager.runner dbQ "t1" (.ok sampleResult) (some raisingCallback)).db
        "t1").map TaskRecord.status = some "failed" :=
  ⟨rfl, rfl⟩

/-- C1 amended: after the finishing write the per-task sequence performs
    no further store write — so the terminal record never changes —
    provided the job faulted (a failed record is final whatever the
    callback does) or the supplied callback does not raise on the
    re-fetched record of a successful job.  In the remaining case (job
    succeeded, callback raised) the finished record is overwritten once
    to failed, as the counterexample and C9 show. -/
theorem C1_amended_terminal_stable (db : Store) (task_id : String) (job : JobOutcome)
    (completion : Option Callback)
    (h : (∃ m, job = .fault m) ∨
      (∀ cb current, completion = some cb →
        TaskRepository.get (finishingDb db task_id job) task_id = some current →
        cb current = none)) :
    (TaskManager.runner db task_id job completion).db = finishingDb db task_id job := by
  cases job with
  | fault m => exact runner_fault_db db task_id m completion
  | ok result =>
    rcases h with ⟨m, hm⟩ | hsilent
    · exact JobOutcome.noConfusion hm
    · cases completion with
      | none => rfl
      | some cb =>
        cases hg : TaskRepository.get
            (TaskRepository.update_result
              (TaskRepository.update_status db task_id "running") task_id result)
            task_id with
        | none =>
          unfold TaskManager.runner finishingDb
          simp [hg]
        | some current =>
          have hc := hsilent cb current rfl hg
          unfold TaskManager.runner finishingDb
          simp [hg, hc]

/-- Witness: the amended C1 statement on a failed concrete task with a
    raising callback — the failed terminal store is final. -/
theorem C1_amended_terminal_stable_witness :
    (TaskManager.runner dbQ "t1" (.fault "boom") (some raisingCallback)).db =
      finishingDb dbQ "t1" (.fault "boom") :=
  C1_amended_terminal_stable dbQ "t1" (.fault "boom") (some raisingCallback)
    (Or.inl ⟨"boom", rfl⟩)

/-
Claim C2: the completion callback is invoked exactly once.
-/

/-- C2 counterexample: with a callback that raises on the finished
    record, the callback of task `t1` is invoked twice, not exactly
    once. -/
theorem C2_counterexample :
    (TaskManager.runner dbQ "t1" (.ok sampleResult)
        (some raisingCallback)).invocations.length = 2 :=
  rfl

/-- C2 amended: when a callback was supplied and the task record exists,
    the callback is invoked once or twice; every record passed to it is
    the one re-fetched from the store after a terminal write, so it
    shows a terminal status (`finished` or `failed`); and it is invoked
    exactly once whenever it does not itself raise (a second invocation
    occurs only when the job succeeded and the callback raised on the
    finished record). -/
theorem C2_amended_callback_terminal (db : Store) (task_id : String)
    (job : JobOutcome) (cb : Callback) (r0 : TaskRecord)
    (hget : TaskRepository.get db task_id = some r0) :
    (1 ≤ (TaskManager.runner db task_id job (some cb)).invocations.length ∧
      (TaskManager.runner db task_id job (some cb)).invocations.length ≤ 2) ∧
    (∀ rec ∈ (TaskManager.runner db task_id job (some cb)).invocations,
      rec.status = "finished" ∨ rec.status = "failed") ∧
    ((∀ rec, cb rec = none) →
      (TaskManager.runner db task_id job (some cb)).invocations.length = 1) := by
  cases job with
  | ok result =>
    rw [runner_ok_spec db task_id result cb r0 hget]
    cases hcb : cb { r0 with status := "finished", result := some result, error := none } with
    | none => simp
    | some exc =>
      refine ⟨by simp, by simp, ?_⟩
      intro hall
      have h1 := hall { r0 with status := "finished", result := some result, error := none }
      rw [h1] at hcb
      exact Option.noConfusion hcb
  | fault m =>
    rw [runner_fault_spec db task_id m cb r0 hget]
    simp

/-- Witness: the amended C2 statement for a successful concrete task
    with a quiet callback. -/
theorem C2_amended_callback_terminal_witness :
    (1 ≤ (TaskManager.runner dbQ "t1" (.ok sampleResult)
        (some quietCallback)).invocations.length ∧
      (TaskManager.runner dbQ "t1" (.ok sampleResult)
        (some quietCallback)).invocations.length ≤ 2) ∧
    (∀ rec ∈ (TaskManager.runner dbQ "t1" (.ok sampleResult)
        (some quietCallback)).invocations,
      rec.status = "finished" ∨ rec.status = "failed") ∧
    ((∀ rec, quietCallback rec = none) →
      (TaskManager.runner dbQ "t1" (.ok sampleResult)
        (some quietCallback)).invocations.length = 1) :=
  C2_amended_callback_terminal dbQ "t1" (.ok sampleResult) quietCallback
    (queuedRecord "t1" sampleTime sampleConfig none) rfl

/-
Claim C6: job faults are absorbed into a failed record.
-/

/-- C6: a job that raises with message M is absorbed by the orchestrator
    into a terminal record with status failed, error M and null result;
    the `submit` caller already received the queued record normally
    before the job ran, and (with no callback in play) no exception
    escapes the worker either — the job fault is never re-raised. -/
theorem C6_job_fault_absorbed (db : Store) (task_id : String) (now : PyDatetime)
    (config_data : Json) (metadata : Option Json) (M : String)
    (completion : Option Callback) (h : ∀ r ∈ db, r.id ≠ task_id) :
    TaskManager.submit db task_id now config_data metadata =
      .ok (db ++ [(queuedRecord task_id now config_data metadata).toRow],
        queuedRecord task_id now config_data metadata) ∧
    TaskRepository.get
        (TaskManager.runner
          (db ++ [(queuedRecord task_id now config_data metadata).toRow])
          task_id (.fault M) completion).db task_id =
      some { id := task_id, status := "failed", created_at := now,
             config_payload := config_data, result := none, error := some M,
             metadata := pyOrEmptyObj metadata } ∧
    (completion = none →
      (TaskManager.runner
          (db ++ [(queuedRecord task_id now config_data metadata).toRow])
          task_id (.fault M) completion).escaped = none) := by
  refine ⟨submit_fresh db task_id now config_data metadata h, ?_, ?_⟩
  · rw [runner_fault_db, get_update_error, get_update_status,
      get_after_submit db task_id now config_data metadata h]
    rfl
  · rintro rfl
    rfl

/-- Witness: C6 with a concrete job fault message `"boom"` and no
    callback, from the empty store. -/
theorem C6_job_fault_absorbed_witness :
    TaskManager.submit [] "t1" sampleTime sampleConfig none =
      .ok ([] ++ [(queuedRecord "t1" sampleTime sampleConfig none).toRow],
        queuedRecord "t1" sampleTime sampleConfig none) ∧
    TaskRepository.get
        (TaskManager.runner
          ([] ++ [(queuedRecord "t1" sampleTime sampleConfig none).toRow])
          "t1" (.fault "boom") none).db "t1" =
      some { id := "t1", status := "failed", created_at := sampleTime,
             config_payload := sampleConfig, result := none, error := some "boom",
             metadata := pyOrEmptyObj none } ∧
    (none = (none : Option Callback) →
      (TaskManager.runner
          ([] ++ [(queuedRecord "t1" sampleTime sampleConfig none).toRow])
          "t1" (.fault "boom") none).escaped = none) :=
  C6_job_fault_absorbed [] "t1" sampleTime sampleConfig none "boom" none (by simp)

/-
Claim C9: a callback fault on the success path.
-/

/-- C9: when the completion callback raises (with message msg) on the
    record re-fetched after the successful finishing write, the per-task
    handler catches that fault, overwrites the record to status failed
    with error msg and null result, and invokes the callback a second
    time with the now-failed re-fetched record. -/
theorem C9_callback_fault_after_success (db : Store) (task_id : String)
    (now : PyDatetime) (config_data : Json) (metadata : Option Json)
    (result : Json) (cb : Callback) (msg : String)
    (h : ∀ r ∈ db, r.id ≠ task_id)
    (hraise :
      cb { id := task_id, status := "finished", created_at := now,
           config_payload := config_data, result := some result, error := none,
           metadata := pyOrEmptyObj metadata } = some msg) :
    TaskRepository.get
        (TaskManager.runner
          (db ++ [(queuedRecord task_id now config_data metadata).toRow])
          task_id (.ok result) (some cb)).db task_id =
      some { id := task_id, status := "failed", created_at := now,
             config_payload := config_data, result := none, error := some msg,
             metadata := pyOrEmptyObj metadata } ∧
    (TaskManager.runner
        (db ++ [(queuedRecord task_id now config_data metadata).toRow])
        task_id (.ok result) (some cb)).invocations =
      [{ id := task_id, status := "finished", created_at := now,
         config_payload := config_data, result := some result, error := none,
         metadata := pyOrEmptyObj metadata },
       { id := task_id, status := "failed", created_at := now,
         config_payload := config_data, result := none, error := some msg,
         metadata := pyOrEmptyObj metadata }] := by
  have hget := get_after_submit db task_id now config_data metadata h
  rw [runner_ok_spec _ task_id result cb _ hget]
  have hrec : ({ queuedRecord task_id now config_data metadata with
      status := "finished", result := some result, error := none } : TaskRecord) =
      { id := task_id, status := "finished", created_at := now,
        config_payload := config_data, result := some result, error := none,
        metadata := pyOrEmptyObj metadata } := rfl
  rw [hrec, hraise]
  constructor
  · show TaskRepository.get
        (TaskRepository.update_error
          (TaskRepository.update_result
            (TaskRepository.update_status
              (db ++ [(queuedRecord task_id now config_data metadata).toRow])
              task_id "running") task_id result) task_id msg) task_id = _
    rw [get_update_error, get_update_result, get_update_status, hget]
    rfl
  · rfl

/-- Witness: C9 with the concrete raising callback — it raises with
    message `"notify blew up"` exactly on finished records. -/
theorem C9_callback_fault_after_success_witness :
    TaskRepository.get
        (TaskManager.runner
          ([] ++ [(queuedRecord "t1" sampleTime sampleConfig none).toRow])
          "t1" (.ok sampleResult) (some raisingCallback)).db "t1" =
      some { id := "t1", status := "failed", created_at := sampleTime,
             config_payload := sampleConfig, result := none,
             error := some "notify blew up", metadata := pyOrEmptyObj none } ∧
    (TaskManager.runner
        ([] ++ [(queuedRecord "t1" sampleTime sampleConfig none).toRow])
        "t1" (.ok sampleResult) (some raisingCallback)).invocations =
      [{ id := "t1", status := "finished", created_at := sampleTime,
         config_payload := sampleConfig, result := some sampleResult, error := none,
         metadata := pyOrEmptyObj none },
       { id := "t1", status := "failed", created_at := sampleTime,
         config_payload := sampleConfig, result := none,
         error := some "notify blew up", metadata := pyOrEmptyObj none }] :=
  C9_callback_fault_after_success [] "t1" sampleTime sampleConfig none sampleResult
    raisingCallback "notify blew up" (by simp) rfl

/-
Claim C8: the serialised wire shape.
-/

/-- Key list of the specification's Read contract, written down from the
    spec's own words for comparison with the implementation (the
    contract names the caller-supplied mapping's key `input`). -/
def specReadContractKeys : List String :=
  ["id", "status", "created_at", "input", "error", "metadata", "result"]

/-- C8 counterexample: the wire mapping of a concrete record does not
    carry the Read contract's key list — the caller-supplied input
    mapping is exposed under the key `config`, and no key `input`
    exists at all. -/
theorem C8_counterexample :
    sampleRecord.to_dict.map Prod.fst ≠ specReadContractKeys ∧
    "input" ∉ sampleRecord.to_dict.map Prod.fst := by
  exact ⟨by decide, by decide⟩

/-- C8 amended: the serialised wire form of every task record is a
    mapping exposing exactly the keys id, status, created_at (an
    ISO-8601 string), config (holding the caller-supplied input), error
    (nullable), metadata and result (nullable), in this order. -/
theorem C8_amended_wire_keys (r : TaskRecord) :
    r.to_dict.map Prod.fst =
      ["id", "status", "created_at", "config", "error", "metadata", "result"] ∧
    List.lookup "created_at" r.to_dict = some (.str r.created_at.isoformat) :=
  ⟨rfl, rfl⟩

/-
Claim C10: create followed by get round-trips the record.
-/

/-- C10: for a record with mapping-typed metadata (as the dataclass
    declares) whose id is fresh, `create_task` followed by `get` returns
    the record unchanged: id, status and error are equal outright, and
    the JSON-serialised fields and ISO-serialised timestamp are equal
    because `json.loads`/`datetime.fromisoformat` invert
    `json.dumps`/`isoformat` (value-preserving round-trips per the
    modelling conventions); the only transformation `create_task`
    applies, `metadata or {}`, is the identity on mappings. -/
theorem C10_create_then_get_roundtrip (db : Store) (record : TaskRecord)
    (kvs : List (String × Json)) (h : ∀ r ∈ db, r.id ≠ record.id)
    (hmd : record.metadata = .obj kvs) :
    ∃ db2, TaskRepository.create_task db record = .ok db2 ∧
      TaskRepository.get db2 record.id = some record := by
  refine ⟨db ++ [record.toRow], create_task_fresh db record h, ?_⟩
  have hg := get_append_fresh db record.toRow h
  have hback : TaskRepository.rowToRecord record.toRow = record := by
    cases record with
    | mk id status created_at config_payload result error metadata =>
      simp only [TaskRecord.toRow, TaskRepository.rowToRecord] at hmd ⊢
      subst hmd
      cases kvs with
      | nil => rfl
      | cons kv tl => rfl
  rw [hback] at hg
  exact hg

/-- Witness: C10 on the empty store with a concrete record carrying
    non-empty metadata. -/
theorem C10_create_then_get_roundtrip_witness :
    ∃ db2, TaskRepository.create_task [] sampleRecord = .ok db2 ∧
      TaskRepository.get db2 sampleRecord.id = some sampleRecord :=
  C10_create_then_get_roundtrip [] sampleRecord [("source", .str "telegram")]
    (by simp) rfl
